import Mathlib

/-!
Shallow embedding of the x-network daemon (Go) for checking its
natural-language specification.  Each definition is translated from the
named Go source function; machine integers are modelled as Nat/Int with
explicit `% 2 ^ w` where wraparound matters.

Source layout:
  internal/state/state.go    : State, Manager, DBmToPercent, FrequencyToBand
  internal/iwd/client.go     : IWD client (Connect, fetchNetworksFromIWD, ...)
  internal/iwd/agent.go      : credential Agent (SetPending, RequestPassphrase)
  internal/dbus/service.go   : bus facade (emitPropertiesChanged, properties)
  internal/dbus/properties.go: Properties.Get / GetAll
  internal/dbus/methods.go   : bus method handlers (Disconnect, ...)
  unnamed/part_000 (netlink) : kernel event watcher
  unnamed/part_001 (traffic) : traffic sampler
-/

/-- ConnectionState from internal/state/state.go. -/
inductive ConnState
  | disconnected
  | connecting
  | obtaining
  | connected
  | failed
  deriving DecidableEq, Repr

/-- String value of a ConnectionState constant (state.go). -/
def ConnState.toGoString : ConnState → String
  | .disconnected => "disconnected"
  | .connecting => "connecting"
  | .obtaining => "obtaining"
  | .connected => "connected"
  | .failed => "failed"

/-- Network record from internal/state/state.go.  Go `int16 SignalDBm` is an
Int, `uint8 Signal` and `uint32 Frequency` are Nat. -/
structure Network where
  SSID : String := ""
  Security : String := ""
  SignalDBm : Int := 0
  Signal : Nat := 0
  Connected : Bool := false
  Saved : Bool := false
  Frequency : Nat := 0
  ObjectPath : String := ""
  deriving DecidableEq, Repr

/-- State snapshot from internal/state/state.go.  Field names follow the Go
struct; integer widths are modelled as Nat/Int. -/
structure State where
  WifiEnabled : Bool := false
  WifiScanning : Bool := false
  ConnectionState : ConnState := .disconnected
  ActiveSSID : String := ""
  ConnectingSSID : String := ""
  ActiveSecurity : String := ""
  SignalRSSI : Int := 0
  SignalStrength : Nat := 0
  Frequency : Nat := 0
  InterfaceName : String := ""
  MacAddress : String := ""
  IpAddress : String := ""
  Gateway : String := ""
  TrafficIn : Nat := 0
  TrafficOut : Nat := 0
  Networks : List Network := []
  SavedNetworks : List String := []
  AirplaneMode : Bool := false
  CaptivePortalDetected : Bool := false
  CaptivePortalURL : String := ""
  LastCaptiveCheckSSID : String := ""
  HotspotActive : Bool := false
  HotspotSSID : String := ""
  ConnectionType : String := ""
  UsbInterfaceDetected : Bool := false
  UsbTetheringAvailable : Bool := false
  UsbTetheringConnected : Bool := false
  UsbInterfaceName : String := ""
  UsbInterfaceIndex : Nat := 0
  LastError : String := ""
  WasResumed : Bool := false
  ResumeTimestamp : Nat := 0
  WeatherTriggered : Bool := false
  IsStartup : Bool := false
  deriving DecidableEq, Repr

/-- NewManager's initial snapshot (state.go): zero values with
ConnectionState = disconnected. -/
def initialState : State := {}

/-- DBmToPercent from internal/state/state.go.  The Go body converts
`2*(int(dBm)+100)` to uint8, which wraps mod 256; inside the guarded range
the value lies in (0,100) so the wrap is the identity. -/
def DBmToPercent (dBm : Int) : Nat :=
  if dBm ≤ -100 then 0
  else if dBm ≥ -50 then 100
  else ((2 * (dBm + 100)) % 256).toNat

/-- FrequencyToBand from internal/state/state.go. -/
def FrequencyToBand (freq : Nat) : String :=
  if 2400 ≤ freq ∧ freq < 2500 then "2.4GHz"
  else if 5000 ≤ freq ∧ freq < 6000 then "5GHz"
  else if 6000 ≤ freq then "6GHz"
  else "unknown"

/-- The state mutation of Service.Disconnect (internal/dbus/methods.go,
applied when the IWD Disconnect call succeeded). -/
def disconnectWrite (st : State) : State :=
  { st with ConnectionState := .disconnected
            ActiveSSID := ""
            SignalRSSI := 0
            SignalStrength := 0 }

/-- The state writes of fetchActiveSignal (internal/iwd/client.go) for the
matching ordered-networks entry: `netRSSI` is IWD's 1/100-dBm reading, the
Go code divides by 100 (int16 division truncates toward zero) and stores
both the dBm value and its percentage. -/
def fetchActiveSignalWrite (st : State) (netRSSI : Int) : State :=
  let rssiDBm := Int.tdiv netRSSI 100
  { st with SignalRSSI := rssiDBm
            SignalStrength := DBmToPercent rssiDBm }

/-- IWD-client connection bookkeeping fields (internal/iwd/client.go:Client). -/
structure ClientFlags where
  initialized : Bool := false
  devicePath : String := ""
  stationPath : String := ""
  deriving DecidableEq, Repr

/-- handleIWDDisappear from internal/iwd/client.go: clears the client's
paths and initialized flag and applies one state Update. -/
def handleIWDDisappear (_c : ClientFlags) (st : State) : ClientFlags × State :=
  (⟨false, "", ""⟩,
   { st with WifiEnabled := false
             WifiScanning := false
             ConnectionState := .disconnected
             ActiveSSID := ""
             SignalStrength := 0 })

/-- The IWD Network properties read by getNetworkInfo
(internal/iwd/client.go) via Properties.GetAll: each key may be absent from
the D-Bus property map, in which case the Go code leaves the zero value. -/
structure IwdNetworkProps where
  name : Option String := none
  netType : Option String := none
  connected : Option Bool := none
  knownNetwork : Option String := none
  deriving DecidableEq, Repr

/-- getNetworkInfo from internal/iwd/client.go.  `props = none` models a
failed GetAll call (the Go function returns nil); `rssi` is IWD's raw
1/100-dBm int16 reading, divided by 100 with Go's truncating division.
The Saved flag is the non-emptiness of the KnownNetwork object path. -/
def getNetworkInfo (path : String) (props : Option IwdNetworkProps) (rssi : Int) :
    Option Network :=
  match props with
  | none => none
  | some p =>
      some { ObjectPath := path
             SignalDBm := Int.tdiv rssi 100
             Signal := DBmToPercent (Int.tdiv rssi 100)
             SSID := p.name.getD ""
             Security := p.netType.getD ""
             Connected := p.connected.getD false
             Saved := p.knownNetwork.getD "" ≠ ""
             Frequency := 0 }

/-- One GetOrderedNetworks entry together with the result of the
per-network GetAll call: (object path, properties or failure, raw RSSI). -/
abbrev OrderedEntry := String × Option IwdNetworkProps × Int

/-- fetchNetworksFromIWD from internal/iwd/client.go: for each ordered
entry build the Network record, then override Connected to true when the
SSID matches the snapshot's non-empty ActiveSSID.  (The Go code only ever
sets the flag to true; it never clears a supplicant-reported true.) -/
def fetchNetworksFromIWD (entries : List OrderedEntry) (activeSSID : String) :
    List Network :=
  entries.filterMap fun e =>
    (getNetworkInfo e.1 e.2.1 e.2.2).map fun net =>
      if net.SSID = activeSSID ∧ activeSSID ≠ "" then { net with Connected := true }
      else net

/-- PendingCredential from internal/iwd/agent.go; `created` is the creation
instant in seconds. -/
structure PendingCredential where
  password : String
  created : Nat
  deriving DecidableEq, Repr

/-- The agent's pending map (internal/iwd/agent.go), keyed by IWD network
object path.  A Go map is modelled as an association list with at most one
entry per key. -/
abbrev PendingMap := List (String × PendingCredential)

/-- Go map lookup `a.pending[network]`. -/
def lookupPending : PendingMap → String → Option PendingCredential
  | [], _ => none
  | (q, c) :: rest, p => if q = p then some c else lookupPending rest p

/-- Go map `delete(a.pending, network)`. -/
def erasePending : PendingMap → String → PendingMap
  | [], _ => []
  | (q, c) :: rest, p =>
      if q = p then erasePending rest p else (q, c) :: erasePending rest p

/-- CredentialTTL from internal/iwd/agent.go, in seconds. -/
def CredentialTTL : Nat := 30

/-- Agent.SetPending from internal/iwd/agent.go: map assignment with the
current instant as creation time. -/
def SetPending (m : PendingMap) (network password : String) (now : Nat) : PendingMap :=
  (network, ⟨password, now⟩) :: erasePending m network

/-- Agent.RequestPassphrase from internal/iwd/agent.go.  Returns the reply
(`none` models the Canceled D-Bus error) and the pending map after the
call.  `now` is the instant of the call; `time.Since(cred.Created)` is
`now - cred.created` (the monotonic clock never runs backwards). -/
def RequestPassphrase (m : PendingMap) (now : Nat) (network : String) :
    Option String × PendingMap :=
  match lookupPending m network with
  | none => (none, m)
  | some cred =>
      if now - cred.created > CredentialTTL then (none, erasePending m network)
      else (some cred.password, erasePending m network)

/-- The SSID-resolution loop of Client.Connect (internal/iwd/client.go):
first scan result whose SSID matches gives (networkPath, networkSecurity);
no match leaves both empty. -/
def findNetworkBySSID (networks : List Network) (ssid : String) : String × String :=
  match networks.find? (fun n => n.SSID == ssid) with
  | some n => (n.ObjectPath, n.Security)
  | none => ("", "")

/-- The credential-setup prefix of Client.Connect (internal/iwd/client.go):
the resolved network path and whether a pending credential is stored for it
(password non-empty and the PSK-class security test of the Go code).
`none` models the early `network not found` error (not hidden, no match). -/
structure ConnectSetup where
  networkPath : String
  storesPending : Bool
  deriving DecidableEq, Repr

def connectSetup (networks : List Network) (ssid password security : String)
    (hidden : Bool) : Option ConnectSetup :=
  let res := findNetworkBySSID networks ssid
  let networkPath := res.1
  let networkSecurity := res.2
  if networkPath = "" ∧ ¬hidden then none
  else
    some { networkPath := networkPath
           storesPending := password != "" &&
             (networkSecurity == "psk" || security == "psk" ||
              networkSecurity == "wpa2" || networkSecurity == "wpa3") }

/-- The connect-generation bookkeeping of the IWD client
(internal/iwd/client.go): the uint64 connectID counter and the
ConnectingSSID state field.  The counter only ever increments; its 2^64
wraparound is unreachable in any run of fewer than 2^64 Connect calls and
is not modelled. -/
structure ConnectGenState where
  connectID : Nat
  connectingSSID : String
  deriving DecidableEq, Repr

/-- Events touching the connect generation machinery, all executed under
the connect mutex or the state lock:
`beginAttempt` is the `c.connectID++` prologue of a Connect call (the call
captures the new value); `setConnecting ssid` is the state Update writing
ConnectingSSID; `returnWith g` is the return path of the Connect call that
captured generation `g`, which clears ConnectingSSID only when the captured
generation equals the current counter. -/
inductive ConnectEvent
  | beginAttempt
  | setConnecting (ssid : String)
  | returnWith (g : Nat)
  deriving DecidableEq, Repr

def connectStep (s : ConnectGenState) : ConnectEvent → ConnectGenState
  | .beginAttempt => { s with connectID := s.connectID + 1 }
  | .setConnecting ssid => { s with connectingSSID := ssid }
  | .returnWith g =>
      if s.connectID = g then { s with connectingSSID := "" } else s

def connectRun (s : ConnectGenState) (evs : List ConnectEvent) : ConnectGenState :=
  evs.foldl connectStep s

/-- handleLinkMessage with isRemoved = true (RTM_DELLINK) from
unnamed/part_000 (netlink watcher): clear all USB fields together when the
removed ifindex matches the tracked one. -/
def handleLinkRemoved (st : State) (name : String) (index : Nat) : State :=
  if name = "" ∨ name = "lo" then st
  else if st.UsbInterfaceIndex = index then
    { st with UsbInterfaceDetected := false
              UsbTetheringAvailable := false
              UsbTetheringConnected := false
              UsbInterfaceName := ""
              UsbInterfaceIndex := 0 }
  else st

/-- handleLinkMessage with isRemoved = false (RTM_NEWLINK) from
unnamed/part_000.  `isUsb` is the sysfs classification isUsbInterface and
`ctype` the getConnectionType result, both read from /sys outside the
state mutation.  The DHCP / bring-up side effects of the carrier rising
edge have no state writes and are omitted. -/
def handleLinkNew (st : State) (name : String) (index : Nat)
    (isUp carrier isUsb : Bool) (ctype : String) : State :=
  if name = "" ∨ name = "lo" then st
  else
    let st1 :=
      if isUsb then
        let stU := { st with UsbInterfaceDetected := true
                             UsbInterfaceName := name
                             UsbInterfaceIndex := index }
        if carrier then
          if ¬stU.UsbTetheringAvailable then { stU with UsbTetheringAvailable := true }
          else stU
        else { stU with UsbTetheringAvailable := false, UsbTetheringConnected := false }
      else st
    if ¬isUsb ∧ isUp ∧ (st1.InterfaceName = name ∨ st1.InterfaceName = "") then
      { st1 with InterfaceName := name, ConnectionType := ctype }
    else st1

/-- handleAddressMessage with isRemoved = false (RTM_NEWADDR) from
unnamed/part_000.  `name` is the ifindex-resolved interface name, `ip` the
formatted address (net.IP.String() is never empty), `hasRoute` the result
of checkDefaultRouteViaInterface and `isUsb` the sysfs classification. -/
def handleAddressNew (st : State) (name : String) (ip : String)
    (hasRoute isUsb : Bool) : State :=
  if name = "" ∨ name = "lo" then st
  else
    let st1 :=
      if isUsb ∧ st.UsbInterfaceName = name then
        let stA := { st with IpAddress := ip }
        if hasRoute then { stA with UsbTetheringConnected := true, ConnectionType := "usb" }
        else stA
      else st
    if ¬isUsb ∧ st1.InterfaceName = name then
      let st2 := { st1 with IpAddress := ip }
      if st2.ConnectionState = .connecting ∨ st2.ConnectionState = .obtaining then
        { st2 with ConnectionState := .connected }
      else st2
    else st1

/-- The `State` case of handleStationChange (internal/iwd/client.go):
map the IWD string to the enumeration, detect authentication failure on
connecting → disconnected, and report whether the asynchronous USB
fallback goroutine is spawned (prev = connected ∧ tethering available ∧
USB interface name non-empty). -/
def handleStationState (st : State) (s : String) : State × Bool :=
  if s = "disconnected" then
    let prev := st.ConnectionState
    let st1 := { st with ConnectionState := .disconnected
                         ActiveSSID := ""
                         ConnectingSSID := "" }
    let st2 :=
      if prev = .connecting then
        { st1 with LastError := "Authentication failed", ConnectionState := .failed }
      else st1
    (st2, decide (prev = .connected) && st2.UsbTetheringAvailable &&
          decide (st2.UsbInterfaceName ≠ ""))
  else if s = "connecting" then
    ({ st with ConnectionState := .connecting, LastError := "" }, false)
  else if s = "connected" then
    ({ st with ConnectionState := .connected, ConnectingSSID := "", LastError := "" }, false)
  else if s = "roaming" then
    ({ st with ConnectionState := .connected }, false)
  else (st, false)

/-- The state update at the end of tryUsbFallback (internal/iwd/client.go),
run when dhcpcd succeeded: it writes neither IpAddress nor the other USB
flags. -/
def tryUsbFallbackWrite (st : State) : State :=
  { st with UsbTetheringConnected := true, ConnectionType := "usb" }

/-- The async state update of ReleaseUsbNetwork (internal/dbus/methods.go). -/
def releaseUsbWrite (st : State) : State :=
  { st with UsbTetheringConnected := false }

/-- The events of the producers that write the USB-tethering fields.
`usbFallbackDone` is the completion of a tryUsbFallback goroutine; it can
only run after a stationState "disconnected" event spawned it. -/
inductive DaemonEvent
  | newlink (name : String) (index : Nat) (isUp carrier isUsb : Bool) (ctype : String)
  | dellink (name : String) (index : Nat)
  | newaddr (name : String) (ip : String) (hasRoute isUsb : Bool)
  | stationState (s : String)
  | usbFallbackDone
  | releaseUsb
  deriving DecidableEq, Repr

/-- A daemon configuration: the shared snapshot plus the number of
USB-fallback goroutines spawned but not yet completed. -/
structure DaemonConfig where
  st : State := initialState
  pendingFallbacks : Nat := 0
  deriving DecidableEq, Repr

def daemonStep (cfg : DaemonConfig) : DaemonEvent → DaemonConfig
  | .newlink name index isUp carrier isUsb ctype =>
      { cfg with st := handleLinkNew cfg.st name index isUp carrier isUsb ctype }
  | .dellink name index => { cfg with st := handleLinkRemoved cfg.st name index }
  | .newaddr name ip hasRoute isUsb =>
      { cfg with st := handleAddressNew cfg.st name ip hasRoute isUsb }
  | .stationState s =>
      let r := handleStationState cfg.st s
      { st := r.1
        pendingFallbacks := cfg.pendingFallbacks + (if r.2 then 1 else 0) }
  | .usbFallbackDone =>
      if cfg.pendingFallbacks > 0 then
        { st := tryUsbFallbackWrite cfg.st, pendingFallbacks := cfg.pendingFallbacks - 1 }
      else cfg
  | .releaseUsb => { cfg with st := releaseUsbWrite cfg.st }

def daemonRun (cfg : DaemonConfig) (evs : List DaemonEvent) : DaemonConfig :=
  evs.foldl daemonStep cfg

/-- Traffic sampler bookkeeping fields (unnamed/part_001, Monitor). -/
structure MonitorState where
  lastRx : Nat := 0
  lastTx : Nat := 0
  idleEmitted : Bool := false
  deriving DecidableEq, Repr

/-- minDeltaBytes from unnamed/part_001. -/
def minDeltaBytes : Nat := 100

/-- Go uint64 subtraction `a - b` for a, b < 2^64: the difference mod 2^64. -/
def sub64 (a b : Nat) : Nat := (a + 2 ^ 64 - b) % 2 ^ 64

/-- Monitor.sample from unnamed/part_001, with the interface selection and
the sysfs reads abstracted into the (rx, tx) byte-counter inputs.  Returns
the new monitor state and the (TrafficIn, TrafficOut) update submitted to
the store, if any. -/
def sample (m : MonitorState) (rx tx : Nat) : MonitorState × Option (Nat × Nat) :=
  if rx = 0 ∧ tx = 0 then (m, none)
  else
    let deltaRx := if m.lastRx > 0 then sub64 rx m.lastRx else 0
    let deltaTx := if m.lastRx > 0 then sub64 tx m.lastTx else 0
    let m1 : MonitorState := { m with lastRx := rx, lastTx := tx }
    if deltaRx > minDeltaBytes ∨ deltaTx > minDeltaBytes then
      ({ m1 with idleEmitted := false }, some (deltaRx, deltaTx))
    else if deltaRx = 0 ∧ deltaTx = 0 ∧ ¬m.idleEmitted then
      ({ m1 with idleEmitted := true }, some (0, 0))
    else (m1, none)

/-- NetworkDBus from internal/dbus/properties.go. -/
structure NetworkDBus where
  SSID : String
  Security : String
  Signal : Nat
  Connected : Bool
  Frequency : Nat
  deriving DecidableEq, Repr

/-- networksToDBus from internal/dbus/properties.go. -/
def networksToDBus (networks : List Network) : List NetworkDBus :=
  networks.map fun n =>
    { SSID := n.SSID
      Security := n.Security
      Signal := n.Signal
      Connected := n.Connected
      Frequency := n.Frequency }

/-- A D-Bus variant payload as produced by the facade: bool, string,
int16, unsigned integer, network array or string array. -/
inductive DBusValue
  | vb (b : Bool)
  | vs (s : String)
  | vi (i : Int)
  | vn (n : Nat)
  | vnets (l : List NetworkDBus)
  | vstrs (l : List String)
  deriving DecidableEq, Repr

/-- emitPropertiesChanged from internal/dbus/service.go: the changed-map
broadcast on every state-change callback.  It is a fixed 13-entry map. -/
def emitPropertiesChanged (st : State) : List (String × DBusValue) :=
  [("WifiEnabled", .vb st.WifiEnabled),
   ("WifiScanning", .vb st.WifiScanning),
   ("ConnectionState", .vs st.ConnectionState.toGoString),
   ("ActiveSSID", .vs st.ActiveSSID),
   ("SignalRSSI", .vi st.SignalRSSI),
   ("SignalStrength", .vn st.SignalStrength),
   ("IpAddress", .vs st.IpAddress),
   ("Gateway", .vs st.Gateway),
   ("TrafficIn", .vn st.TrafficIn),
   ("TrafficOut", .vn st.TrafficOut),
   ("AirplaneMode", .vb st.AirplaneMode),
   ("CaptivePortalDetected", .vb st.CaptivePortalDetected),
   ("HotspotActive", .vb st.HotspotActive)]

/-- The property names introspected by Service.properties
(internal/dbus/service.go), in source order. -/
def visibleProperties : List String :=
  ["WifiEnabled", "WifiScanning", "ConnectionState", "ActiveSSID",
   "ActiveSecurity", "SignalRSSI", "SignalStrength", "Frequency",
   "IpAddress", "Gateway", "MacAddress", "InterfaceName",
   "TrafficIn", "TrafficOut", "Networks", "SavedNetworks",
   "AirplaneMode", "CaptivePortalDetected", "HotspotActive",
   "ConnectionType", "Band",
   "UsbInterfaceDetected", "UsbTetheringAvailable", "UsbTetheringConnected",
   "UsbInterfaceName"]

/-- Properties.Get from internal/dbus/properties.go: the current value of
a named property of the org.xshell.Network interface (`none` models the
UnknownProperty error). -/
def getProp (st : State) (propName : String) : Option DBusValue :=
  if propName = "WifiEnabled" then some (.vb st.WifiEnabled)
  else if propName = "WifiScanning" then some (.vb st.WifiScanning)
  else if propName = "ConnectionState" then some (.vs st.ConnectionState.toGoString)
  else if propName = "ActiveSSID" then some (.vs st.ActiveSSID)
  else if propName = "ConnectingSSID" then some (.vs st.ConnectingSSID)
  else if propName = "ActiveSecurity" then some (.vs st.ActiveSecurity)
  else if propName = "SignalRSSI" then some (.vi st.SignalRSSI)
  else if propName = "SignalStrength" then some (.vn st.SignalStrength)
  else if propName = "Frequency" then some (.vn st.Frequency)
  else if propName = "IpAddress" then some (.vs st.IpAddress)
  else if propName = "Gateway" then some (.vs st.Gateway)
  else if propName = "MacAddress" then some (.vs st.MacAddress)
  else if propName = "InterfaceName" then some (.vs st.InterfaceName)
  else if propName = "TrafficIn" then some (.vn st.TrafficIn)
  else if propName = "TrafficOut" then some (.vn st.TrafficOut)
  else if propName = "Networks" then some (.vnets (networksToDBus st.Networks))
  else if propName = "SavedNetworks" then some (.vstrs st.SavedNetworks)
  else if propName = "AirplaneMode" then some (.vb st.AirplaneMode)
  else if propName = "CaptivePortalDetected" then some (.vb st.CaptivePortalDetected)
  else if propName = "HotspotActive" then some (.vb st.HotspotActive)
  else if propName = "ConnectionType" then some (.vs st.ConnectionType)
  else if propName = "Band" then some (.vs (FrequencyToBand st.Frequency))
  else if propName = "UsbInterfaceDetected" then some (.vb st.UsbInterfaceDetected)
  else if propName = "UsbTetheringAvailable" then some (.vb st.UsbTetheringAvailable)
  else if propName = "UsbTetheringConnected" then some (.vb st.UsbTetheringConnected)
  else if propName = "UsbInterfaceName" then some (.vs st.UsbInterfaceName)
  else if propName = "LastError" then some (.vs st.LastError)
  else none

/-- A concrete ordered-networks result: one network the supplicant reports
as Connected while the snapshot's ActiveSSID is empty. -/
def c1Entries : List OrderedEntry :=
  [("/net/0",
    some { name := some "Cafe", netType := some "psk",
           connected := some true, knownNetwork := some "" },
    -6000)]

/-- The Network record published for c1Entries with ActiveSSID = "". -/
def c1Net : Network :=
  { SSID := "Cafe", Security := "psk", SignalDBm := -60, Signal := 80,
    Connected := true, Saved := false, Frequency := 0, ObjectPath := "/net/0" }

/-- Events that exclude the asynchronous USB-fallback completion and whose
address payloads are well formed (net.IP.String() never returns ""). -/
def safeEvent : DaemonEvent → Bool
  | .newaddr _ ip _ _ => ip != ""
  | .usbFallbackDone => false
  | _ => true

/-- The USB-tethering invariant of claim C3, together with the auxiliary
fact needed for its induction: a non-empty tracked USB interface name
implies the detected flag. -/
def usbInvariant (st : State) : Prop :=
  (st.UsbInterfaceName ≠ "" → st.UsbInterfaceDetected = true) ∧
  (st.UsbTetheringConnected = true →
    st.UsbInterfaceDetected = true ∧ st.IpAddress ≠ "")

/-- A concrete event trace: USB carrier comes up, WiFi connects then
disconnects (legitimately spawning the USB fallback: tethering available
and interface name non-empty), and the fallback's dhcpcd completes before
any RTM_NEWADDR is processed. -/
def c3Trace : List DaemonEvent :=
  [.newlink "usb0" 5 false true true "usb",
   .stationState "connected",
   .stationState "disconnected",
   .usbFallbackDone]

/-- A monitor state one tick before a pathological wraparound: the
previous rx reading is 2^64 − 1. -/
def c10Mon : MonitorState := { lastRx := 2 ^ 64 - 1, lastTx := 7, idleEmitted := false }

/-! ## Shared helper lemmas -/

theorem lookup_erasePending (m : PendingMap) (p : String) :
    lookupPending (erasePending m p) p = none := by
  induction m with
  | nil => rfl
  | cons e rest ih =>
      obtain ⟨q, c⟩ := e
      by_cases h : q = p
      · simpa [erasePending, h] using ih
      · simpa [erasePending, lookupPending, h] using ih

theorem lookup_erasePending_ne (m : PendingMap) (q p : String) (h : q ≠ p) :
    lookupPending (erasePending m q) p = lookupPending m p := by
  induction m with
  | nil => rfl
  | cons e rest ih =>
      obtain ⟨r, c⟩ := e
      by_cases hr : r = q
      · subst hr
        simpa [erasePending, lookupPending, h] using ih
      · simp [erasePending, lookupPending, hr]
        by_cases hp : r = p
        · simp [hp]
        · simpa [hp] using ih

theorem connectID_mono (s : ConnectGenState) (evs : List ConnectEvent) :
    s.connectID ≤ (connectRun s evs).connectID := by
  induction evs generalizing s with
  | nil => simp [connectRun]
  | cons e rest ih =>
      have hrest := ih (connectStep s e)
      have hstep : s.connectID ≤ (connectStep s e).connectID := by
        cases e with
        | beginAttempt => simp [connectStep]
        | setConnecting ssid => simp [connectStep]
        | returnWith g =>
            simp only [connectStep]
            split <;> simp
      calc s.connectID ≤ (connectStep s e).connectID := hstep
        _ ≤ (connectRun (connectStep s e) rest).connectID := hrest

/-! ## C2: signal strength clamp -/

/-- Claim C2 (counterexample): Disconnect writes SignalRSSI = 0 and
SignalStrength = 0, but the clamp maps 0 dBm to 100 (0 ≥ −50), so the
snapshot published right after a successful Disconnect violates the
claimed relation SignalStrength = DBmToPercent SignalRSSI. -/
theorem C2_cex :
    (disconnectWrite initialState).SignalRSSI = 0 ∧
    (disconnectWrite initialState).SignalStrength = 0 ∧
    (disconnectWrite initialState).SignalStrength ≠
      DBmToPercent (disconnectWrite initialState).SignalRSSI := by
  refine ⟨rfl, rfl, ?_⟩
  decide

/-- Claim C2 (amended): DBmToPercent is the stated piecewise-linear clamp
(0 below −100 dBm, 100 above −50 dBm, 2·(dBm+100) between), and the
measured-signal write path of fetchActiveSignal preserves
SignalStrength = DBmToPercent SignalRSSI; Disconnect instead writes the
pair (SignalRSSI, SignalStrength) = (0, 0), which does not satisfy the
clamp relation since DBmToPercent 0 = 100. -/
theorem C2_thm :
    (∀ dBm : Int,
      (dBm ≤ -100 → DBmToPercent dBm = 0) ∧
      (dBm ≥ -50 → DBmToPercent dBm = 100) ∧
      (-100 < dBm → dBm < -50 → DBmToPercent dBm = (2 * (dBm + 100)).toNat)) ∧
    (∀ (st : State) (netRSSI : Int),
      (fetchActiveSignalWrite st netRSSI).SignalStrength =
        DBmToPercent (fetchActiveSignalWrite st netRSSI).SignalRSSI) ∧
    (∀ st : State,
      (disconnectWrite st).SignalRSSI = 0 ∧
      (disconnectWrite st).SignalStrength = 0) ∧
    DBmToPercent 0 = 100 := by
  refine ⟨?_, fun st netRSSI => rfl, fun st => ⟨rfl, rfl⟩, by decide⟩
  intro d
  refine ⟨fun h => ?_, fun h => ?_, fun h1 h2 => ?_⟩
  · simp [DBmToPercent, h]
  · unfold DBmToPercent
    rw [if_neg (by omega), if_pos h]
  · unfold DBmToPercent
    rw [if_neg (by omega), if_neg (by omega)]
    omega

/-- Witness for C2_thm at dBm = −70 (inside the linear band: 60%). -/
theorem C2_thm_witness : DBmToPercent (-70) = 60 := by
  have h := (C2_thm.1 (-70)).2.2 (by decide) (by decide)
  rw [h]
  decide

/-! ## C7: supplicant disappearance -/

/-- Claim C7: handleIWDDisappear marks the client uninitialized, clears the
device and station paths, and in a single state Update writes
wifi_enabled = false, wifi_scanning = false, connection_state =
disconnected, active_ssid = "" and signal_strength = 0; every other
snapshot field is untouched, so the one change callback of that Update
publishes exactly this snapshot. -/
theorem C7_thm (c : ClientFlags) (st : State) :
    (handleIWDDisappear c st).1.initialized = false ∧
    (handleIWDDisappear c st).1.devicePath = "" ∧
    (handleIWDDisappear c st).1.stationPath = "" ∧
    (handleIWDDisappear c st).2.WifiEnabled = false ∧
    (handleIWDDisappear c st).2.WifiScanning = false ∧
    (handleIWDDisappear c st).2.ConnectionState = .disconnected ∧
    (handleIWDDisappear c st).2.ActiveSSID = "" ∧
    (handleIWDDisappear c st).2.SignalStrength = 0 ∧
    (handleIWDDisappear c st).2 =
      { st with WifiEnabled := false
                WifiScanning := false
                ConnectionState := .disconnected
                ActiveSSID := ""
                SignalStrength := 0 } := by
  exact ⟨rfl, rfl, rfl, rfl, rfl, rfl, rfl, rfl, rfl⟩

/-! ## C4: connect generation counter -/

/-- Claim C4: the return path of a Connect call that captured generation G
clears ConnectingSSID only when G equals the current counter; once a later
Connect call has incremented the counter past G (G < connectID), no
sequence of further events lets the older call's return clear
ConnectingSSID — in particular the value set by the newer call survives. -/
theorem C4_thm (s : ConnectGenState) (G : Nat) (evs : List ConnectEvent)
    (hlater : G < s.connectID) :
    (connectStep (connectRun s evs) (.returnWith G)).connectingSSID =
      (connectRun s evs).connectingSSID ∧
    (∀ t : ConnectGenState, t.connectID ≠ G →
      (connectStep t (.returnWith G)).connectingSSID = t.connectingSSID) ∧
    (∀ t : ConnectGenState, t.connectID = G →
      (connectStep t (.returnWith G)).connectingSSID = "") := by
  refine ⟨?_, fun t ht => by simp [connectStep, ht], fun t ht => by simp [connectStep, ht]⟩
  have hmono := connectID_mono s evs
  have hne : (connectRun s evs).connectID ≠ G := by omega
  simp [connectStep, hne]

/-- Witness for C4_thm: call A captured generation 1, call B captured
generation 2 and set ConnectingSSID = "B"; A's return leaves it intact. -/
theorem C4_witness :
    (1 : Nat) < 2 ∧
    (connectStep (connectRun ⟨2, ""⟩ [.setConnecting "B"]) (.returnWith 1)).connectingSSID =
      (connectRun ⟨2, ""⟩ [.setConnecting "B"]).connectingSSID :=
  ⟨by decide, (C4_thm ⟨2, ""⟩ 1 [.setConnecting "B"] (by decide)).1⟩

/-! ## C5: RequestPassphrase and the credential TTL -/

/-- Claim C5: RequestPassphrase returns the stored password and removes the
entry when one exists aged at most 30 s; with no entry, or an entry older
than 30 s (which is deleted), it fails with Cancelled (modelled as none);
and after any RequestPassphrase on path p the pending map has no entry for
p, so a credential survives neither its TTL nor a subsequent request. -/
theorem C5_thm (m : PendingMap) (now : Nat) (p : String) :
    (lookupPending m p = none → RequestPassphrase m now p = (none, m)) ∧
    (∀ cred, lookupPending m p = some cred →
      (now - cred.created > 30 →
        RequestPassphrase m now p = (none, erasePending m p)) ∧
      (now - cred.created ≤ 30 →
        RequestPassphrase m now p = (some cred.password, erasePending m p))) ∧
    lookupPending (RequestPassphrase m now p).2 p = none := by
  refine ⟨?_, ?_, ?_⟩
  · intro h; simp [RequestPassphrase, h]
  · intro cred h
    constructor
    · intro hexp
      simp [RequestPassphrase, h, CredentialTTL, hexp]
    · intro hfresh
      have hn : ¬ now - cred.created > CredentialTTL := by
        simp [CredentialTTL]; omega
      simp [RequestPassphrase, h, hn]
  · cases hl : lookupPending m p with
    | none => simp [RequestPassphrase, hl]
    | some cred =>
        simp only [RequestPassphrase, hl]
        split
        · simpa using lookup_erasePending m p
        · simpa using lookup_erasePending m p

/-- Witness for C5_thm: a fresh entry (age 5 s ≤ 30 s) is returned and
removed. -/
theorem C5_witness :
    RequestPassphrase [("net1", ⟨"pw", 5⟩)] 10 "net1" = (some "pw", []) := by
  have h := ((C5_thm [("net1", ⟨"pw", 5⟩)] 10 "net1").2.1 ⟨"pw", 5⟩ rfl).2 (by decide)
  simpa [erasePending] using h

/-! ## C1: the Connected flag of published networks -/

/-- Claim C1 (counterexample): with ActiveSSID empty and the supplicant
reporting Connected = true, fetchNetworksFromIWD publishes the network with
Connected = true although its SSID does not equal the (empty) ActiveSSID —
the Go code only forces Connected to true for the active SSID and never
clears a supplicant-reported true, refuting the claimed equivalence. -/
theorem C1_cex :
    ∃ N ∈ fetchNetworksFromIWD c1Entries "",
      N.Connected = true ∧ ¬(N.SSID = "" ∧ ("" : String) ≠ "") := by
  have h : fetchNetworksFromIWD c1Entries "" = [c1Net] := rfl
  refine ⟨c1Net, ?_, rfl, ?_⟩
  · rw [h]; exact List.mem_singleton.mpr rfl
  · intro hc
    exact hc.2 rfl

/-- Claim C1 (amended): every network published by fetchNetworksFromIWD
stems from an ordered entry whose per-network GetAll succeeded, carries
that entry's Name as SSID, and has Connected = true iff the supplicant
reported Connected for that entry OR its SSID equals the snapshot's
non-empty ActiveSSID.  (The one-sided override guarantees the claim's
⇐ direction; the ⇒ direction fails when the supplicant reports true.) -/
theorem C1_thm (entries : List OrderedEntry) (activeSSID : String) (N : Network)
    (hN : N ∈ fetchNetworksFromIWD entries activeSSID) :
    ∃ path props rssi, (path, some props, rssi) ∈ entries ∧
      N.SSID = props.name.getD "" ∧
      (N.Connected = true ↔
        (props.connected.getD false = true ∨
         (N.SSID = activeSSID ∧ activeSSID ≠ ""))) := by
  unfold fetchNetworksFromIWD at hN
  rw [List.mem_filterMap] at hN
  obtain ⟨e, he, hfe⟩ := hN
  obtain ⟨path, oprops, rssi⟩ := e
  cases oprops with
  | none => simp [getNetworkInfo] at hfe
  | some p =>
      refine ⟨path, p, rssi, he, ?_⟩
      simp only [getNetworkInfo, Option.map_some'] at hfe
      rw [Option.some_inj] at hfe
      by_cases hcond : p.name.getD "" = activeSSID ∧ activeSSID ≠ ""
      · rw [if_pos hcond] at hfe
        subst hfe
        simp [hcond]
      · rw [if_neg hcond] at hfe
        subst hfe
        refine ⟨rfl, fun hrep => Or.inl hrep, ?_⟩
        rintro (hrep | hc)
        · exact hrep
        · exact absurd hc hcond

/-- Witness for C1_thm at the concrete entry list and published network. -/
theorem C1_witness :
    ∃ path props rssi, (path, some props, rssi) ∈ c1Entries ∧
      c1Net.SSID = props.name.getD "" ∧
      (c1Net.Connected = true ↔
        (props.connected.getD false = true ∨
         (c1Net.SSID = "" ∧ ("" : String) ≠ ""))) :=
  C1_thm c1Entries "" c1Net
    (by rw [show fetchNetworksFromIWD c1Entries "" = [c1Net] from rfl]
        exact List.mem_singleton.mpr rfl)

/-! ## C9: hidden connect stores the credential under the empty path -/

/-- Claim C9: Connect(ssid, password, "psk", hidden = true) with a
non-empty password and an SSID absent from the scan results resolves the
network path to "" and still stores the pending credential, so it lands
under the empty object path; a RequestPassphrase on the real non-empty
network path then finds no entry and fails with Cancelled (none), leaving
the map unchanged. -/
theorem C9_thm (networks : List Network) (ssid password : String)
    (m : PendingMap) (now : Nat) (realPath : String)
    (hpw : password ≠ "")
    (hmiss : ∀ n ∈ networks, n.SSID ≠ ssid)
    (hreal : realPath ≠ "")
    (hno : lookupPending m realPath = none) :
    connectSetup networks ssid password "psk" true =
      some { networkPath := "", storesPending := true } ∧
    lookupPending (SetPending m "" password now) "" = some ⟨password, now⟩ ∧
    RequestPassphrase (SetPending m "" password now) now realPath =
      (none, SetPending m "" password now) := by
  have hfind : findNetworkBySSID networks ssid = ("", "") := by
    unfold findNetworkBySSID
    rw [List.find?_eq_none.mpr ?_]
    intro n hn
    simpa using hmiss n hn
  refine ⟨?_, ?_, ?_⟩
  · unfold connectSetup
    rw [hfind]
    simp [hpw]
  · simp [SetPending, lookupPending]
  · have hlk : lookupPending (SetPending m "" password now) realPath = none := by
      unfold SetPending
      simp only [lookupPending]
      rw [if_neg (Ne.symm hreal), lookup_erasePending_ne m "" realPath (Ne.symm hreal)]
      exact hno
    simp [RequestPassphrase, hlk]

/-- Witness for C9_thm: hidden SSID "Hidden" absent from one scan result,
fresh pending map. -/
theorem C9_witness :
    connectSetup [{ SSID := "Home", ObjectPath := "/net/1", Security := "psk" }]
        "Hidden" "pw" "psk" true =
      some { networkPath := "", storesPending := true } ∧
    lookupPending (SetPending [] "" "pw" 3) "" = some ⟨"pw", 3⟩ ∧
    RequestPassphrase (SetPending [] "" "pw" 3) 3 "/net/9" =
      (none, SetPending [] "" "pw" 3) := by
  have h := C9_thm [{ SSID := "Home", ObjectPath := "/net/1", Security := "psk" }]
    "Hidden" "pw" [] 3 "/net/9" (by decide) (by decide) (by decide) rfl
  exact h

/-! ## C6: the PropertiesChanged broadcast -/

/-- Claim C6 (counterexample): the changed-properties map broadcast by
emitPropertiesChanged omits ActiveSecurity (an introspected visible
property) and ConnectingSSID, refuting the claim that it carries an entry
for every publicly visible property. -/
theorem C6_cex :
    "ActiveSecurity" ∈ visibleProperties ∧
    "ActiveSecurity" ∉ (emitPropertiesChanged initialState).map Prod.fst ∧
    "ConnectingSSID" ∉ (emitPropertiesChanged initialState).map Prod.fst := by
  decide

/-- Claim C6 (amended): on every state-change callback the broadcast
carries a fixed 13-property map — WifiEnabled, WifiScanning,
ConnectionState, ActiveSSID, SignalRSSI, SignalStrength, IpAddress,
Gateway, TrafficIn, TrafficOut, AirplaneMode, CaptivePortalDetected,
HotspotActive — each entry holding the property's current value (it agrees
with Properties.Get); it is not a diff, but it is also not the full
visible property set. -/
theorem C6_thm (st : State) :
    (emitPropertiesChanged st).map Prod.fst =
      ["WifiEnabled", "WifiScanning", "ConnectionState", "ActiveSSID",
       "SignalRSSI", "SignalStrength", "IpAddress", "Gateway",
       "TrafficIn", "TrafficOut", "AirplaneMode", "CaptivePortalDetected",
       "HotspotActive"] ∧
    ∀ p ∈ emitPropertiesChanged st, p.1 ∈ visibleProperties ∧ getProp st p.1 = some p.2 := by
  refine ⟨rfl, ?_⟩
  intro p hp
  simp only [emitPropertiesChanged, List.mem_cons, List.not_mem_nil, or_false] at hp
  rcases hp with rfl|rfl|rfl|rfl|rfl|rfl|rfl|rfl|rfl|rfl|rfl|rfl|rfl
  all_goals refine ⟨?_, rfl⟩
  all_goals simp [visibleProperties]

/-- Witness for C6_thm at the initial snapshot and the ActiveSSID entry. -/
theorem C6_witness :
    ("ActiveSSID", DBusValue.vs "") ∈ emitPropertiesChanged initialState ∧
    "ActiveSSID" ∈ visibleProperties ∧
    getProp initialState "ActiveSSID" = some (.vs "") := by
  have hm : ("ActiveSSID", DBusValue.vs "") ∈ emitPropertiesChanged initialState := by
    decide
  have h := (C6_thm initialState).2 ("ActiveSSID", .vs "") hm
  exact ⟨hm, h.1, h.2⟩

/-! ## C3: USB tethering invariant -/

/-- Claim C3 (counterexample): on the reachable trace c3Trace the fallback
goroutine was legitimately spawned (one pending fallback after the WiFi
disconnect), and its completion publishes a snapshot with
UsbTetheringConnected = true while IpAddress is still empty — the fallback
write path neither writes nor checks IpAddress, refuting the claim. -/
theorem C3_cex :
    (daemonRun {} (c3Trace.take 3)).pendingFallbacks = 1 ∧
    (daemonRun {} c3Trace).st.UsbTetheringConnected = true ∧
    (daemonRun {} c3Trace).st.UsbTetheringAvailable = true ∧
    (daemonRun {} c3Trace).st.UsbInterfaceDetected = true ∧
    (daemonRun {} c3Trace).st.IpAddress = "" := by
  decide

theorem ite_proj_UsbInterfaceName (c : Prop) [Decidable c] (a b : State) :
    (if c then a else b).UsbInterfaceName =
      if c then a.UsbInterfaceName else b.UsbInterfaceName := by
  split <;> rfl

theorem ite_proj_UsbInterfaceDetected (c : Prop) [Decidable c] (a b : State) :
    (if c then a else b).UsbInterfaceDetected =
      if c then a.UsbInterfaceDetected else b.UsbInterfaceDetected := by
  split <;> rfl

theorem ite_proj_UsbTetheringAvailable (c : Prop) [Decidable c] (a b : State) :
    (if c then a else b).UsbTetheringAvailable =
      if c then a.UsbTetheringAvailable else b.UsbTetheringAvailable := by
  split <;> rfl

theorem ite_proj_UsbTetheringConnected (c : Prop) [Decidable c] (a b : State) :
    (if c then a else b).UsbTetheringConnected =
      if c then a.UsbTetheringConnected else b.UsbTetheringConnected := by
  split <;> rfl

theorem ite_proj_IpAddress (c : Prop) [Decidable c] (a b : State) :
    (if c then a else b).IpAddress = if c then a.IpAddress else b.IpAddress := by
  split <;> rfl

theorem ite_proj_InterfaceName (c : Prop) [Decidable c] (a b : State) :
    (if c then a else b).InterfaceName =
      if c then a.InterfaceName else b.InterfaceName := by
  split <;> rfl

theorem ite_proj_ConnectionState (c : Prop) [Decidable c] (a b : State) :
    (if c then a else b).ConnectionState =
      if c then a.ConnectionState else b.ConnectionState := by
  split <;> rfl

theorem usbInvariant_step (cfg : DaemonConfig) (e : DaemonEvent)
    (hinv : usbInvariant cfg.st) (he : safeEvent e = true) :
    usbInvariant (daemonStep cfg e).st := by
  obtain ⟨h1, h2⟩ := hinv
  cases e with
  | newlink name index isUp carrier isUsb ctype =>
      simp only [daemonStep]
      unfold handleLinkNew usbInvariant
      constructor <;> intro hx <;>
        simp only [ite_proj_UsbInterfaceName, ite_proj_UsbInterfaceDetected, ite_proj_UsbTetheringAvailable, ite_proj_UsbTetheringConnected, ite_proj_IpAddress, ite_proj_InterfaceName, ite_proj_ConnectionState, ite_self] at hx ⊢ <;>
        (try split_ifs at hx ⊢) <;> simp_all
  | dellink name index =>
      simp only [daemonStep]
      unfold handleLinkRemoved usbInvariant
      split_ifs <;> constructor <;> intro hx <;> simp_all
  | newaddr name ip hasRoute isUsb =>
      have hip : ip ≠ "" := by simpa [safeEvent] using he
      simp only [daemonStep]
      unfold handleAddressNew usbInvariant
      constructor <;> intro hx <;>
        simp only [ite_proj_UsbInterfaceName, ite_proj_UsbInterfaceDetected, ite_proj_UsbTetheringAvailable, ite_proj_UsbTetheringConnected, ite_proj_IpAddress, ite_proj_InterfaceName, ite_proj_ConnectionState, ite_self] at hx ⊢ <;>
        (try split_ifs at hx ⊢) <;> simp_all
  | stationState s =>
      simp only [daemonStep]
      unfold handleStationState usbInvariant
      constructor <;> intro hx <;>
        simp only [ite_proj_UsbInterfaceName, ite_proj_UsbInterfaceDetected, ite_proj_UsbTetheringAvailable, ite_proj_UsbTetheringConnected, ite_proj_IpAddress, ite_proj_InterfaceName, ite_proj_ConnectionState, ite_self] at hx ⊢ <;>
        (try split_ifs at hx ⊢) <;> simp_all
  | usbFallbackDone => simp [safeEvent] at he
  | releaseUsb =>
      simp only [daemonStep]
      unfold releaseUsbWrite usbInvariant
      constructor <;> intro hx <;> simp_all

theorem usbInvariant_run (cfg : DaemonConfig) (evs : List DaemonEvent)
    (hinv : usbInvariant cfg.st) (hsafe : ∀ e ∈ evs, safeEvent e = true) :
    usbInvariant (daemonRun cfg evs).st := by
  induction evs generalizing cfg with
  | nil => simpa [daemonRun] using hinv
  | cons e rest ih =>
      have hstep := usbInvariant_step cfg e hinv (hsafe e (List.mem_cons_self e rest))
      have hrest := ih (daemonStep cfg e) hstep
        (fun x hx => hsafe x (List.mem_cons_of_mem e hx))
      simpa [daemonRun] using hrest

/-- Claim C3 (amended): over every event trace of the netlink and station
producers whose address payloads are non-empty and that contains no
USB-fallback completion, every reachable snapshot satisfies
UsbTetheringConnected → UsbInterfaceDetected ∧ IpAddress ≠ "".  The
UsbTetheringAvailable conjunct does not hold even then (the address
handler does not check it), and the fallback path defeats the IpAddress
conjunct, as C3's counterexample shows. -/
theorem C3_thm (evs : List DaemonEvent)
    (hsafe : ∀ e ∈ evs, safeEvent e = true)
    (hconn : (daemonRun {} evs).st.UsbTetheringConnected = true) :
    (daemonRun {} evs).st.UsbInterfaceDetected = true ∧
    (daemonRun {} evs).st.IpAddress ≠ "" := by
  have hinv0 : usbInvariant (({} : DaemonConfig)).st := by
    constructor
    · intro h; exact absurd rfl h
    · intro h; exact absurd h (by decide)
  exact (usbInvariant_run {} evs hinv0 hsafe).2 hconn

/-- Witness for C3_thm: carrier up then an address with a default route. -/
theorem C3_witness :
    (daemonRun {} [.newlink "usb0" 5 true true true "usb",
                   .newaddr "usb0" "192.0.2.5" true true]).st.UsbTetheringConnected
      = true ∧
    (daemonRun {} [.newlink "usb0" 5 true true true "usb",
                   .newaddr "usb0" "192.0.2.5" true true]).st.UsbInterfaceDetected
      = true ∧
    (daemonRun {} [.newlink "usb0" 5 true true true "usb",
                   .newaddr "usb0" "192.0.2.5" true true]).st.IpAddress ≠ "" := by
  have hs : ∀ e ∈ ([.newlink "usb0" 5 true true true "usb",
                    .newaddr "usb0" "192.0.2.5" true true] : List DaemonEvent),
      safeEvent e = true := by decide
  have hc : (daemonRun {} [.newlink "usb0" 5 true true true "usb",
                           .newaddr "usb0" "192.0.2.5" true true]).st.UsbTetheringConnected
      = true := by decide
  have h := C3_thm [.newlink "usb0" 5 true true true "usb",
                    .newaddr "usb0" "192.0.2.5" true true] hs hc
  exact ⟨hc, h.1, h.2⟩

/-! ## C8: traffic sampler emissions -/

/-- Claim C8 (counterexample): on the very first sample (previous reading
zero) with nonzero raw readings, the computed deltas are suppressed to
(0, 0), idleEmitted starts false, and the idle branch fires — so the
sampler DOES publish a (0, 0) traffic update, refuting the claim that the
first sample publishes no traffic value. -/
theorem C8_cex :
    ({} : MonitorState).lastRx = 0 ∧
    (sample {} 5000 3000).2 = some (0, 0) :=
  ⟨rfl, rfl⟩

/-- Case characterization of Monitor.sample: the early return on zero raw
readings, the delta emission, the one-shot idle emission, and the silent
step, with the exact updated monitor state of each. -/
theorem sample_spec (m : MonitorState) (rx tx : Nat) :
    (rx = 0 ∧ tx = 0 ∧ sample m rx tx = (m, none)) ∨
    (¬(rx = 0 ∧ tx = 0) ∧
      (((if m.lastRx > 0 then sub64 rx m.lastRx else 0) > minDeltaBytes ∨
        (if m.lastRx > 0 then sub64 tx m.lastTx else 0) > minDeltaBytes) ∧
        sample m rx tx =
          ({ lastRx := rx, lastTx := tx, idleEmitted := false },
           some ((if m.lastRx > 0 then sub64 rx m.lastRx else 0),
                 (if m.lastRx > 0 then sub64 tx m.lastTx else 0))) ∨
       (¬((if m.lastRx > 0 then sub64 rx m.lastRx else 0) > minDeltaBytes ∨
          (if m.lastRx > 0 then sub64 tx m.lastTx else 0) > minDeltaBytes) ∧
        ((if m.lastRx > 0 then sub64 rx m.lastRx else 0) = 0 ∧
         (if m.lastRx > 0 then sub64 tx m.lastTx else 0) = 0 ∧ ¬m.idleEmitted) ∧
        sample m rx tx =
          ({ lastRx := rx, lastTx := tx, idleEmitted := true }, some (0, 0))) ∨
       (¬((if m.lastRx > 0 then sub64 rx m.lastRx else 0) > minDeltaBytes ∨
          (if m.lastRx > 0 then sub64 tx m.lastTx else 0) > minDeltaBytes) ∧
        ¬((if m.lastRx > 0 then sub64 rx m.lastRx else 0) = 0 ∧
          (if m.lastRx > 0 then sub64 tx m.lastTx else 0) = 0 ∧ ¬m.idleEmitted) ∧
        sample m rx tx =
          ({ lastRx := rx, lastTx := tx, idleEmitted := m.idleEmitted }, none)))) := by
  unfold sample
  by_cases c1 : rx = 0 ∧ tx = 0
  · rw [if_pos c1]
    exact Or.inl ⟨c1.1, c1.2, rfl⟩
  · rw [if_neg c1]
    by_cases c3 : (if m.lastRx > 0 then sub64 rx m.lastRx else 0) > minDeltaBytes ∨
        (if m.lastRx > 0 then sub64 tx m.lastTx else 0) > minDeltaBytes
    · rw [if_pos c3]
      exact Or.inr ⟨c1, Or.inl ⟨c3, rfl⟩⟩
    · rw [if_neg c3]
      by_cases c4 : (if m.lastRx > 0 then sub64 rx m.lastRx else 0) = 0 ∧
          (if m.lastRx > 0 then sub64 tx m.lastTx else 0) = 0 ∧ ¬m.idleEmitted
      · rw [if_pos c4]
        exact Or.inr ⟨c1, Or.inr (Or.inl ⟨c3, c4, rfl⟩)⟩
      · rw [if_neg c4]
        exact Or.inr ⟨c1, Or.inr (Or.inr ⟨c3, c4, rfl⟩)⟩

/-- Claim C8 (amended): per sampler step — (i) any published non-(0,0)
update carries exactly the uint64 deltas against an existing previous
reading and requires one delta to exceed 100 bytes, re-arming the idle
flag; (ii) a (0,0) update is published only on the transition from
idleEmitted = false and sets idleEmitted, and never while idleEmitted
holds, and samples that publish nothing leave the flag unchanged — hence
exactly one (0,0) per transition to fully idle until a >100-byte delta
resumes; (iii) the first sample (previous reading zero) publishes either
nothing or that single (0,0) idle update, never a traffic delta. -/
theorem C8_thm (m : MonitorState) (rx tx : Nat) :
    (∀ d : Nat × Nat, (sample m rx tx).2 = some d → d ≠ (0, 0) →
      m.lastRx > 0 ∧ d = (sub64 rx m.lastRx, sub64 tx m.lastTx) ∧
      (d.1 > 100 ∨ d.2 > 100) ∧ (sample m rx tx).1.idleEmitted = false) ∧
    ((sample m rx tx).2 = some (0, 0) →
      m.idleEmitted = false ∧ (sample m rx tx).1.idleEmitted = true) ∧
    (m.idleEmitted = true → (sample m rx tx).2 ≠ some (0, 0)) ∧
    ((sample m rx tx).2 = none → (sample m rx tx).1.idleEmitted = m.idleEmitted) ∧
    (m.lastRx = 0 → (sample m rx tx).2 = none ∨ (sample m rx tx).2 = some (0, 0)) := by
  rcases sample_spec m rx tx with ⟨hrx, htx, hs⟩ | ⟨hc1, hcase⟩
  · simp [hs]
  · rcases hcase with ⟨hc3, hs⟩ | ⟨hc3, hc4, hs⟩ | ⟨hc3, hc4, hs⟩
    · by_cases hp : m.lastRx > 0
      · simp only [if_pos hp] at hc3 hs
        refine ⟨?_, ?_, ?_, ?_, ?_⟩
        · intro d hd hne
          rw [hs] at hd
          simp only [Option.some_inj] at hd
          subst hd
          exact ⟨hp, rfl, by simpa [minDeltaBytes] using hc3, by rw [hs]⟩
        · intro hz
          rw [hs] at hz
          simp only [Option.some_inj, Prod.mk.injEq] at hz
          rw [hz.1, hz.2] at hc3
          simp [minDeltaBytes] at hc3
        · intro hI hc
          rw [hs] at hc
          simp only [Option.some_inj, Prod.mk.injEq] at hc
          rw [hc.1, hc.2] at hc3
          simp [minDeltaBytes] at hc3
        · intro hn
          rw [hs] at hn
          simp at hn
        · intro hfirst
          omega
      · simp only [if_neg hp] at hc3
        simp [minDeltaBytes] at hc3
    · refine ⟨?_, ?_, ?_, ?_, ?_⟩
      · intro d hd hne
        rw [hs] at hd
        simp only [Option.some_inj] at hd
        exact absurd hd.symm hne
      · intro hz
        exact ⟨by simpa using hc4.2.2, by rw [hs]⟩
      · intro hI hc
        have := hc4.2.2
        simp [hI] at this
      · intro hn
        rw [hs] at hn
        simp at hn
      · intro hfirst
        exact Or.inr (by rw [hs])
    · refine ⟨?_, ?_, ?_, ?_, ?_⟩
      · intro d hd hne
        rw [hs] at hd
        simp at hd
      · intro hz
        rw [hs] at hz
        simp at hz
      · intro hI hc
        rw [hs] at hc
        simp at hc
      · intro hn
        rw [hs]
      · intro hfirst
        exact Or.inl (by rw [hs])

/-- Witness for C8_thm: previous reading 1000 bytes, current 2000 bytes —
a 1000-byte delta is published and characterized by the theorem. -/
theorem C8_witness :
    (sample ⟨1000, 1000, false⟩ 2000 1000).2 = some (1000, 0) ∧
    ((1000 : Nat), (0 : Nat)) =
      (sub64 2000 1000, sub64 1000 1000) ∧
    ((1000 : Nat) > 100 ∨ (0 : Nat) > 100) ∧
    (sample ⟨1000, 1000, false⟩ 2000 1000).1.idleEmitted = false := by
  have hd : (sample ⟨1000, 1000, false⟩ 2000 1000).2 = some (1000, 0) := by decide
  have h := (C8_thm ⟨1000, 1000, false⟩ 2000 1000).1 (1000, 0) hd (by decide)
  exact ⟨hd, h.2.1, h.2.2.1, h.2.2.2⟩

/-! ## C10: wraparound deltas -/

/-- Claim C10 (counterexample): with previous reading 2^64 − 1 and current
reading 1 the uint64 delta is (1 − (2^64 − 1)) mod 2^64 = 2 — not a value
near 2^64 — it does not exceed the 100-byte threshold and nothing is
published, refuting the claim's universal publication statement. -/
theorem C10_cex :
    c10Mon.lastRx > 0 ∧ (1 : Nat) < c10Mon.lastRx ∧
    sub64 1 c10Mon.lastRx = 2 ∧
    (sample c10Mon 1 7).2 = none := by
  refine ⟨by decide, by decide, by decide, by decide⟩

/-- Claim C10 (amended): deltas are uint64 subtractions: when a previous
reading exists and the current reading is smaller, the computed delta is
(current − previous) mod 2^64 = 2^64 − (previous − current); whenever that
value exceeds the 100-byte threshold (as in any realistic counter reset)
and the raw readings are not both zero, it is published as TrafficIn. -/
theorem C10_thm (m : MonitorState) (rx tx : Nat)
    (hprev : m.lastRx > 0) (hlt : rx < m.lastRx) (hub : m.lastRx < 2 ^ 64)
    (hnz : ¬(rx = 0 ∧ tx = 0))
    (hth : 2 ^ 64 - (m.lastRx - rx) > 100) :
    sub64 rx m.lastRx = 2 ^ 64 - (m.lastRx - rx) ∧
    (sample m rx tx).2 = some (sub64 rx m.lastRx, sub64 tx m.lastTx) := by
  have hsub : sub64 rx m.lastRx = 2 ^ 64 - (m.lastRx - rx) := by
    unfold sub64
    omega
  refine ⟨hsub, ?_⟩
  rcases sample_spec m rx tx with ⟨hrx, htx, _⟩ | ⟨_, hcase⟩
  · exact absurd ⟨hrx, htx⟩ hnz
  · rcases hcase with ⟨h3, hs⟩ | ⟨h3, _, _⟩ | ⟨h3, _, _⟩
    · rw [hs, if_pos hprev, if_pos hprev]
    · rw [if_pos hprev, if_pos hprev] at h3
      rw [hsub] at h3
      simp [minDeltaBytes] at h3
      omega
    · rw [if_pos hprev, if_pos hprev] at h3
      rw [hsub] at h3
      simp [minDeltaBytes] at h3
      omega

/-- Witness for C10_thm: previous reading 1000, counter reset to 100. -/
theorem C10_witness :
    sub64 100 1000 = 2 ^ 64 - 900 ∧
    (sample ⟨1000, 7, false⟩ 100 7).2 = some (2 ^ 64 - 900, 0) := by
  have h := C10_thm ⟨1000, 7, false⟩ 100 7 (by decide) (by decide) (by decide)
    (by decide) (by decide)
  refine ⟨by simpa using h.1, ?_⟩
  rw [h.2, h.1]
  decide
